import Mathlib

/-!
# Verification of the wdai-ai-slackbot inbound-event admission pipeline

Shallow embedding of the admission/classification core of the repository:

* `app/utils/helpers.py`      — duplicate-message detector (`is_duplicate_message`)
* `app/utils/rate_limiter.py` — two-tier fixed-window rate limiter (`UserRateLimiter`)
* `app/services/slack_service.py` — keyword intent classifiers
* `app/routes/slack.py`       — the `slack_events` handler's admission/routing logic

Modelling conventions:

* Wall-clock instants and durations are integers (seconds).  Python's
  `datetime`/`timedelta` comparisons translate directly: `now - start >
  timedelta(seconds=w)` becomes `w < now - start`.
* Python dicts keyed by ids become Lean functions into `Option`; the
  duplicate cache, whose insertion order and size matter, becomes an
  insertion-ordered association list (Python dicts preserve insertion
  order, and the source only inserts keys that are absent).
* The MD5 digest in `create_message_hash` is modelled by the signature
  string itself (`"{text}|{files}|{ts}"`): the code uses the digest only
  as a lookup key, so this keeps exactly the equalities of fingerprints
  that distinct inputs produce, minus the (ignored) possibility of MD5
  collisions.
* Module-level config constants (`MAX_CACHE_SIZE`, `CACHE_EXPIRY_SECONDS`,
  channel restriction, bot user id) are lifted to explicit parameters of
  the functions that read them; their `config.py` default values are
  defined below.
* Python string operations are embedded as executable functions over the
  character list of the string (`lower`, `strip`, `split`, `startswith`,
  substring `in`), with ASCII semantics — all keyword tables in the source
  are ASCII.
* Python truthiness of an optional string (`if team_id:`) is `truthyStr`:
  present and non-empty.
-/

namespace Slackbot

/-! ## Configuration defaults (src/app/config.py) -/

def RATE_LIMIT_ENABLED : Bool := true

def USER_RATE_LIMIT_WINDOW : Int := 60

def USER_RATE_LIMIT_MAX : Nat := 10

def TEAM_RATE_LIMIT_WINDOW : Int := 60

def TEAM_RATE_LIMIT_MAX : Nat := 100

def MAX_CACHE_SIZE : Nat := 100

def CACHE_EXPIRY_SECONDS : Int := 60

/-- Python truthiness of an optional string: present and non-empty. -/
def truthyStr : Option String → Bool
  | some s => s ≠ ""
  | none => false

/-! ## Python string primitives, embedded over `List Char` -/

/-- Whether `sub` is a prefix of `l` (Python `str.startswith` on char lists). -/
def isPrefixOfB : List Char → List Char → Bool
  | [], _ => true
  | _ :: _, [] => false
  | a :: as, b :: bs => a == b && isPrefixOfB as bs

/-- Substring containment (Python `sub in s` on char lists). -/
def containsSubAux (sub : List Char) : List Char → Bool
  | [] => sub.isEmpty
  | c :: rest => isPrefixOfB sub (c :: rest) || containsSubAux sub rest

/-- Python `sub in s` for strings. -/
def strContains (s sub : String) : Bool := containsSubAux sub.data s.data

/-- The characters after the first occurrence of `sub`
(second component of Python `s.split(sub, 1)` when `sub` occurs). -/
def afterFirst (sub : List Char) : List Char → Option (List Char)
  | [] => none
  | c :: rest =>
    if isPrefixOfB sub (c :: rest) then some (List.drop sub.length (c :: rest))
    else afterFirst sub rest

/-- Python `str.lower()` (ASCII). -/
def pyLower (s : String) : String := String.mk (s.data.map Char.toLower)

/-- Strip leading and trailing whitespace from a char list. -/
def trimChars (l : List Char) : List Char :=
  ((l.dropWhile Char.isWhitespace).reverse.dropWhile Char.isWhitespace).reverse

/-- Python `str.strip()`. -/
def pyStrip (s : String) : String := String.mk (trimChars s.data)

/-- Python `str.startswith` for strings. -/
def pyStartsWith (s pre : String) : Bool := isPrefixOfB pre.data s.data

/-- Accumulator pass of Python `str.split()` (split on whitespace runs,
dropping empty words); `cur` holds the current word reversed. -/
def wordsAux (cur : List Char) : List Char → List String
  | [] => if cur.isEmpty then [] else [String.mk cur.reverse]
  | c :: rest =>
    if c.isWhitespace then
      if cur.isEmpty then wordsAux [] rest
      else String.mk cur.reverse :: wordsAux [] rest
    else wordsAux (c :: cur) rest

/-- Python `str.split()` with no separator argument. -/
def pySplitWs (s : String) : List String := wordsAux [] s.data

/-! ## Duplicate detector (src/app/utils/helpers.py) -/

/-- An inbound Slack message event, with the fields the admission pipeline
reads.  Optional fields model `event.get(...)` returning `None` when
absent; `text` models `event.get("text", "")`; `files` holds the ids of
attached files; `ts` is the platform timestamp in seconds. -/
structure SlackEvent where
  etype : Option String
  channel : Option String
  channel_type : Option String
  bot_id : Option String
  user : Option String
  subtype : Option String
  text : String
  files : List String
  ts : Int
deriving DecidableEq, Repr

/-- Embedding of `create_message_hash` (helpers.py:11): the MD5 digest of the signature
string is modelled by the signature string itself (see header). -/
def create_message_hash (event : SlackEvent) : String :=
  event.text ++ "|" ++ String.intercalate "-" event.files ++ "|" ++ toString event.ts

/-- The duplicate cache: fingerprint → last-seen marker (the event's own
`ts`, as stored by `processed_messages[message_hash] = event.get("ts")`),
in insertion order. -/
abbrev DupCache := List (String × Int)

/-- Embedding of `is_duplicate_message` (helpers.py:21).  Returns the boolean result and
the updated cache; `maxCache`/`expiry` are the lifted `MAX_CACHE_SIZE` /
`CACHE_EXPIRY_SECONDS` constants and `now` is `time.time()`.  Python's
`sorted(items, key=lambda x: x[1])` — a stable ascending sort by stored
marker — is modelled by the (stable) insertion sort on the marker order. -/
def is_duplicate_message (maxCache : Nat) (expiry : Int) (event : SlackEvent)
    (cache : DupCache) (now : Int) : Bool × DupCache :=
  let message_hash := create_message_hash event
  if (List.lookup message_hash cache).isSome then (true, cache)
  else if expiry < now - event.ts then (true, cache)
  else
    let cache2 := cache ++ [(message_hash, event.ts)]
    if maxCache < cache2.length then
      let sorted := List.insertionSort (fun a b => a.2 ≤ b.2) cache2
      let removedKeys := (sorted.take (cache2.length - maxCache)).map Prod.fst
      (false, cache2.filter (fun p => !(removedKeys.contains p.1)))
    else (false, cache2)

/-- A sequence of duplicate-check calls against the module cache, starting
from the empty cache (process start): each call supplies an event and the
wall-clock time at which it is processed. -/
def runDup (maxCache : Nat) (expiry : Int) (calls : List (SlackEvent × Int)) : DupCache :=
  calls.foldl (fun cache ci => (is_duplicate_message maxCache expiry ci.1 cache ci.2).2) []

/-! ## Rate limiter (src/app/utils/rate_limiter.py) -/

/-- State of `UserRateLimiter`.  The user map is keyed by the raw
`event.get("user")` value (possibly `None`), the team map by the
(non-empty) team id string. -/
structure RateLimiter where
  user_requests : Option String → Option (Nat × Int)
  team_requests : String → Option (Nat × Int)
  user_window_seconds : Int
  user_max_requests : Nat
  team_window_seconds : Int
  team_max_requests : Nat
  enabled : Bool
  user_limit_hits : Nat
  team_limit_hits : Nat

/-- Point update of a map-as-function. -/
def updMap {α : Type} [DecidableEq α] (m : α → Option (Nat × Int)) (k : α)
    (v : Nat × Int) : α → Option (Nat × Int) :=
  fun x => if x = k then some v else m x

/-- The f-string built on the user-limit rejection path (rate_limiter.py:92). -/
def userLimitReason (count : Nat) (w : Int) : String :=
  s!"User rate limit exceeded: {count} requests in {w} seconds"

/-- The f-string built on the team-limit rejection path (rate_limiter.py:114). -/
def teamLimitReason (count : Nat) (w : Int) : String :=
  s!"Team rate limit exceeded: {count} requests in {w} seconds"

/-- The team-level half of `is_rate_limited` (rate_limiter.py:102-120),
reached only when the user-level check has passed; `reason` is the (empty)
reason variable carried to the final `return False, reason`. -/
def teamPhase (rl : RateLimiter) (team_id : Option String) (current_time : Int)
    (reason : String) : (Bool × String) × RateLimiter :=
  if truthyStr team_id then
    match team_id with
    | none => ((false, reason), rl)
    | some t =>
      match rl.team_requests t with
      | some (team_count, team_window_start) =>
        if rl.team_window_seconds < current_time - team_window_start then
          ((false, reason),
            { rl with team_requests := updMap rl.team_requests t (1, current_time) })
        else if rl.team_max_requests ≤ team_count then
          ((true, teamLimitReason team_count rl.team_window_seconds),
            { rl with team_limit_hits := rl.team_limit_hits + 1 })
        else
          ((false, reason),
            { rl with team_requests :=
                updMap rl.team_requests t (team_count + 1, team_window_start) })
      | none =>
        ((false, reason),
          { rl with team_requests := updMap rl.team_requests t (1, current_time) })
  else ((false, reason), rl)

/-- Embedding of `UserRateLimiter.is_rate_limited` (rate_limiter.py:57-120).  Returns
`((is_limited, reason), new_state)`; `current_time` is `datetime.now()`. -/
def is_rate_limited (rl : RateLimiter) (user_id : Option String)
    (team_id : Option String) (current_time : Int) : (Bool × String) × RateLimiter :=
  if rl.enabled = false then ((false, ""), rl)
  else
    match rl.user_requests user_id with
    | some (count, window_start) =>
      if rl.user_window_seconds < current_time - window_start then
        teamPhase
          { rl with user_requests := updMap rl.user_requests user_id (1, current_time) }
          team_id current_time ""
      else if rl.user_max_requests ≤ count then
        ((true, userLimitReason count rl.user_window_seconds),
          { rl with user_limit_hits := rl.user_limit_hits + 1 })
      else
        teamPhase
          { rl with user_requests :=
              updMap rl.user_requests user_id (count + 1, window_start) }
          team_id current_time ""
    | none =>
      teamPhase
        { rl with user_requests := updMap rl.user_requests user_id (1, current_time) }
        team_id current_time ""

/-- The dictionary returned by `get_remaining_requests`; `none` in an
optional field models the key being absent from the Python dict (the
enabled path only adds the reset keys for currently-active windows). -/
structure RemainingInfo where
  user_remaining : Nat
  team_remaining : Option Nat
  user_window_reset_seconds : Option Int
  team_window_reset_seconds : Option Int
deriving DecidableEq, Repr

/-- Embedding of `UserRateLimiter.get_remaining_requests` (rate_limiter.py:122-180).
`max(0, max_requests - count)` is `Nat` truncated subtraction. -/
def get_remaining_requests (rl : RateLimiter) (user_id : Option String)
    (team_id : Option String) (current_time : Int) : RemainingInfo :=
  if rl.enabled = false then
    { user_remaining := rl.user_max_requests
      team_remaining := if truthyStr team_id then some rl.team_max_requests else none
      user_window_reset_seconds := some 0
      team_window_reset_seconds := some 0 }
  else
    let base : RemainingInfo :=
      { user_remaining := rl.user_max_requests
        team_remaining := if truthyStr team_id then some rl.team_max_requests else none
        user_window_reset_seconds := none
        team_window_reset_seconds := none }
    let withUser :=
      match rl.user_requests user_id with
      | some (count, window_start) =>
        if current_time - window_start ≤ rl.user_window_seconds then
          { base with
              user_remaining := rl.user_max_requests - count
              user_window_reset_seconds :=
                some (max 0 (rl.user_window_seconds - (current_time - window_start))) }
        else base
      | none => base
    match team_id with
    | some t =>
      if truthyStr (some t) then
        match rl.team_requests t with
        | some (team_count, team_window_start) =>
          if current_time - team_window_start ≤ rl.team_window_seconds then
            { withUser with
                team_remaining := some (rl.team_max_requests - team_count)
                team_window_reset_seconds :=
                  some (max 0 (rl.team_window_seconds - (current_time - team_window_start))) }
          else withUser
        | none => withUser
      else withUser
    | none => withUser

/-- Run a sequence of `is_rate_limited` calls for one user (no team id),
collecting the per-call results and the final limiter state. -/
def runRequests (rl : RateLimiter) (user_id : Option String) :
    List Int → List (Bool × String) × RateLimiter
  | [] => ([], rl)
  | t :: rest =>
    let step := is_rate_limited rl user_id none t
    let next := runRequests step.2 user_id rest
    (step.1 :: next.1, next.2)

/-! ## Intent classifiers (src/app/services/slack_service.py) -/

def image_generation_verbs : List String :=
  ["generate", "create", "make", "draw", "design", "produce", "render",
   "show", "visualize", "depict", "illustrate", "craft"]

def image_nouns : List String :=
  ["image", "picture", "photo", "meme", "drawing", "art", "illustration",
   "visual", "graphic", "diagram", "scene", "portrait", "cartoon"]

def words_to_trim : List String := ["a ", "an ", "the ", "of ", "about ", "showing "]

/-- Embedding of `is_image_generation_request` (slack_service.py:106-138). -/
def is_image_generation_request (message_text : String) : Bool × Option String :=
  let t := pyLower message_text
  if (image_generation_verbs.any fun v => strContains t v) &&
      (image_nouns.any fun n => strContains t n) then
    match image_generation_verbs.find? (fun v => strContains t v) with
    | some used_verb =>
      match afterFirst used_verb.data t.data with
      | some restChars =>
        let prompt := pyStrip (String.mk restChars)
        let prompt :=
          match words_to_trim.find? (fun w => pyStartsWith prompt w) with
          | some w => pyStrip (String.mk (prompt.data.drop w.data.length))
          | none => prompt
        (true, some prompt)
      | none => (false, none)
    | none => (false, none)
  else (false, none)

def summarize_keywords : List String := ["summarize", "summary", "summarization", "summarise"]

def web_keywords : List String := ["webpage", "website", "web", "page", "url", "link", "site"]

/-- The trailing-punctuation set stripped from an extracted URL
(slack_service.py:161). -/
def trailingPunct : List Char := ['.', ',', ':', ';', ')', ']', '\x7d']

/-- Embedding of `is_web_summarization_request` (slack_service.py:141-165). -/
def is_web_summarization_request (message_text : String) : Bool × Option String :=
  let t := pyLower message_text
  let has_summarize_keyword := summarize_keywords.any fun k => strContains t k
  let has_web_keyword := web_keywords.any fun k => strContains t k
  let has_url := strContains t "http://" || strContains t "https://"
  if (has_summarize_keyword && has_url) ||
      (has_summarize_keyword && has_web_keyword && has_url) then
    match (pySplitWs t).find?
        (fun w => pyStartsWith w "http://" || pyStartsWith w "https://") with
    | some url =>
      let url :=
        match url.data.getLast? with
        | some c => if trailingPunct.contains c then String.mk url.data.dropLast else url
        | none => url
      (true, some url)
    | none => (false, none)
  else (false, none)

/-! ## Event handler routing (src/app/routes/slack.py) -/

/-- The request body of a Slack events call: `data.get("type")`,
`data.get("team_id")`, `data.get("event", {})`. -/
structure SlackData where
  dtype : Option String
  team_id : Option String
  event : SlackEvent
deriving DecidableEq, Repr

/-- The `{"status": ...}` outcomes of `slack_events`, in source order.
`ok` is the plain-conversation path (slack.py:216); there is no
web-summarization branch in the handler. -/
inductive SlackStatus where
  | challenge
  | ignored_event_type
  | ignored_channel
  | ignored_dm
  | ignored_bot_message
  | ignored_message_changed
  | ignored_duplicate
  | rate_limited (reason : String)
  | ignored_empty_message
  | ok_image_generation
  | ok
deriving DecidableEq, Repr

/-- The mutable state the handler touches: the duplicate cache
(`processed_messages`) and the singleton rate limiter. -/
structure PipelineState where
  cache : DupCache
  limiter : RateLimiter

/-- The admission/routing logic of `slack_events` (slack.py:20-216),
up to the external Slack/OpenAI calls (which happen strictly after every
state mutation modelled here).  `allowed_channel` is `ALLOWED_CHANNEL`,
`bot_user_id` the app-state bot id, `maxCache`/`expiry` the duplicate
cache constants, `now` the current time. -/
def slack_events (allowed_channel bot_user_id : Option String)
    (maxCache : Nat) (expiry : Int) (data : SlackData) (st : PipelineState)
    (now : Int) : SlackStatus × PipelineState :=
  if data.dtype == some "url_verification" then (.challenge, st)
  else
    let event := data.event
    if !(event.etype == some "message" || event.etype == some "app_mention") then
      (.ignored_event_type, st)
    else if (match allowed_channel with
             | some a => a != "" && event.channel != some a
             | none => false) then
      (.ignored_channel, st)
    else if event.channel_type == some "im" then (.ignored_dm, st)
    else if truthyStr event.bot_id || event.user == bot_user_id ||
        event.subtype == some "bot_message" then
      (.ignored_bot_message, st)
    else if event.subtype == some "message_changed" then (.ignored_message_changed, st)
    else
      let dup := is_duplicate_message maxCache expiry event st.cache now
      if dup.1 then (.ignored_duplicate, { st with cache := dup.2 })
      else
        let st := { st with cache := dup.2 }
        let rate := is_rate_limited st.limiter event.user data.team_id now
        let st := { st with limiter := rate.2 }
        if rate.1.1 then (.rate_limited rate.1.2, st)
        else
          let message_text := pyLower event.text
          if pyStrip message_text == "" then (.ignored_empty_message, st)
          else
            let image := is_image_generation_request message_text
            if image.1 && (match image.2 with
                           | some p => p != ""
                           | none => false) then
              (.ok_image_generation, st)
            else (.ok, st)

instance : IsTotal (String × Int) (fun a b => a.2 ≤ b.2) :=
  ⟨fun a b => le_total a.2 b.2⟩

instance : IsTrans (String × Int) (fun a b => a.2 ≤ b.2) :=
  ⟨fun _ _ _ => le_trans⟩

/-! ## Concrete fixtures used by witnesses and counterexamples -/

def evStale : SlackEvent :=
  SlackEvent.mk (some "message") (some "C1") none none (some "U1") none "old news" [] 100

def evNew : SlackEvent :=
  SlackEvent.mk (some "message") (some "C1") none none (some "U1") none "fresh" [] 50

def evSum : SlackEvent :=
  SlackEvent.mk (some "message") (some "C1") none none (some "U1") none
    "can you summarize https://example.com/article please" [] 0

def evBlank : SlackEvent :=
  SlackEvent.mk (some "message") (some "C1") none none (some "U1") none "   " [] 5

def dataSum : SlackData := SlackData.mk none (some "T1") evSum

def dataBlank : SlackData := SlackData.mk none (some "T1") evBlank

def rlBoundary : RateLimiter :=
  RateLimiter.mk (updMap (fun _ => none) (some "U1") (10, 0)) (fun _ => none)
    60 10 60 100 true 0 0

def rlBig : RateLimiter :=
  RateLimiter.mk (updMap (fun _ => none) (some "U1") (1000, 0)) (fun _ => none)
    60 10 60 100 true 0 0

def rlFull : RateLimiter :=
  RateLimiter.mk (updMap (fun _ => none) (some "U1") (10, 0))
    (updMap (fun _ => none) "T1" (7, 0)) 60 10 60 100 true 2 3

def rlSmall : RateLimiter :=
  RateLimiter.mk (fun _ => none) (fun _ => none) 60 2 60 100 true 0 0

def rlFresh : RateLimiter :=
  RateLimiter.mk (fun _ => none) (fun _ => none) 60 10 60 100 true 0 0

def rlTeamFull : RateLimiter :=
  RateLimiter.mk (updMap (fun _ => none) (some "U1") (4, 0))
    (updMap (fun _ => none) "T1" (100, 0)) 60 10 60 100 true 0 0

def stFresh : PipelineState := PipelineState.mk [] rlFresh

/-! ## Helper lemmas -/

theorem updMap_apply_self {α : Type} [DecidableEq α] (m : α → Option (Nat × Int))
    (k : α) (v : Nat × Int) : updMap m k v k = some v := by
  simp [updMap]

theorem updMap_updMap {α : Type} [DecidableEq α] (m : α → Option (Nat × Int))
    (k : α) (v w : Nat × Int) : updMap (updMap m k v) k w = updMap m k w := by
  funext x
  by_cases h : x = k <;> simp [updMap, h]

theorem lookup_eq_none_iff {β : Type} (k : String) :
    ∀ l : List (String × β), List.lookup k l = none ↔ k ∉ l.map Prod.fst
  | [] => by simp
  | (a, b) :: l => by
    by_cases h : k = a
    · subst h
      simp [List.lookup]
    · have hb : (k == a) = false := beq_eq_false_iff_ne.mpr h
      simp [List.lookup, hb, h, lookup_eq_none_iff k l]

/-! ## C2: stale, uncached events are rejected without mutating the cache -/

/-- C2: an event whose origin timestamp is more than `CACHE_EXPIRY_SECONDS`
(`expiry`) before `now` and whose fingerprint is not cached is rejected,
and the cache is returned unchanged — its fingerprint is not inserted, so
any later event (in particular a same-content, distinct-timestamp
duplicate) is evaluated against the very same cache.  The cache is mutated
only on the accept path. -/
theorem C2_stale_rejected_without_caching
    (maxCache : Nat) (expiry : Int) (event : SlackEvent) (cache : DupCache) (now : Int)
    (hfresh : List.lookup (create_message_hash event) cache = none)
    (hstale : expiry < now - event.ts) :
    is_duplicate_message maxCache expiry event cache now = (true, cache) := by
  simp [is_duplicate_message, hfresh, hstale]

theorem C2_stale_rejected_without_caching_witness :
    List.lookup (create_message_hash evStale) [("other|x|3", 3)] = none ∧
    (60 : Int) < 200 - evStale.ts ∧
    is_duplicate_message 100 60 evStale [("other|x|3", 3)] 200 = (true, [("other|x|3", 3)]) :=
  ⟨by decide, by decide,
    C2_stale_rejected_without_caching 100 60 evStale [("other|x|3", 3)] 200
      (by decide) (by decide)⟩

/-! ## C3: the spec's image-generation example -/

/-- C3 counterexample: `classify("please draw a cat wearing a hat")` does
NOT yield an image-generation intent — the text contains the verb "draw"
but none of the nouns in `image_nouns`, and the classifier requires a hit
in both sets, so it returns `(False, None)` rather than an image intent
with prompt `"cat wearing a hat"`. -/
theorem C3_counterexample :
    is_image_generation_request "please draw a cat wearing a hat" = (false, none) := by
  decide

/-- C3 (amended): `classify("please draw a cat wearing a hat")` yields no
image-generation intent, because no image noun occurs in the text; when a
noun is present — `"please draw a picture of a cat wearing a hat"` — the
first matching verb ("draw") is located, the text after its first
occurrence is taken, and one leading filler word ("a ") is stripped,
giving prompt `"picture of a cat wearing a hat"`. -/
theorem C3_image_example_amended :
    is_image_generation_request "please draw a cat wearing a hat" = (false, none) ∧
    is_image_generation_request "please draw a picture of a cat wearing a hat" =
      (true, some "picture of a cat wearing a hat") := by
  constructor <;> decide

/-! ## C4: window expiry uses a strict comparison -/

/-- C4 counterexample: with a window of 60 seconds started at time 0 and a
count of 10 = max, a request at time 60 has elapsed time equal to the
window length; the claim says the window is treated as expired (reset to
count 1 and admitted), but the code's check is strict
(`current_time - window_start > timedelta(...)`), so the request is
rejected and the stored window is left at `(10, 0)`. -/
theorem C4_counterexample :
    (is_rate_limited rlBoundary (some "U1") none 60).1.1 = true ∧
    (is_rate_limited rlBoundary (some "U1") none 60).2.user_requests (some "U1") =
      some (10, 0) := by
  constructor <;> decide

/-- C4 (amended): a window is treated as expired only when the elapsed
time since `window_start` is strictly greater than the window length; in
that case the next `is_rate_limited` call (without a team id) resets the
window to count 1 with the call's time as the new start and admits the
request, regardless of how large the prior count was. -/
theorem C4_strict_expiry_resets
    (rl : RateLimiter) (uid : Option String) (now : Int) (c : Nat) (s : Int)
    (hen : rl.enabled = true)
    (hmap : rl.user_requests uid = some (c, s))
    (hexp : rl.user_window_seconds < now - s) :
    (is_rate_limited rl uid none now).1 = (false, "") ∧
    (is_rate_limited rl uid none now).2.user_requests uid = some (1, now) := by
  simp [is_rate_limited, hen, hmap, hexp, teamPhase, truthyStr, updMap]

theorem C4_strict_expiry_resets_witness :
    rlBig.enabled = true ∧
    rlBig.user_requests (some "U1") = some (1000, 0) ∧
    rlBig.user_window_seconds < 61 - 0 ∧
    (is_rate_limited rlBig (some "U1") none 61).1 = (false, "") ∧
    (is_rate_limited rlBig (some "U1") none 61).2.user_requests (some "U1") =
      some (1, 61) := by
  refine ⟨by decide, by decide, by decide, ?_⟩
  exact C4_strict_expiry_resets rlBig (some "U1") 61 1000 0 (by decide) (by decide) (by decide)

/-! ## C5: a user-level rejection never reaches the team check -/

/-- C5: when the user-level check rejects (unexpired window with count at
or above the user maximum), `is_rate_limited` returns immediately with the
user-limit reason and the only state change is the user hit counter: in
particular the team window map and the team hit counter are untouched,
for any supplied `team_id`. -/
theorem C5_user_reject_skips_team_check
    (rl : RateLimiter) (uid : Option String) (tid : Option String) (now : Int)
    (c : Nat) (s : Int)
    (hen : rl.enabled = true)
    (hmap : rl.user_requests uid = some (c, s))
    (hin : now - s ≤ rl.user_window_seconds)
    (hover : rl.user_max_requests ≤ c) :
    is_rate_limited rl uid tid now =
      ((true, userLimitReason c rl.user_window_seconds),
        { rl with user_limit_hits := rl.user_limit_hits + 1 }) ∧
    (is_rate_limited rl uid tid now).2.team_requests = rl.team_requests ∧
    (is_rate_limited rl uid tid now).2.team_limit_hits = rl.team_limit_hits := by
  have hnl : ¬ (rl.user_window_seconds < now - s) := not_lt.mpr hin
  have hmain : is_rate_limited rl uid tid now =
      ((true, userLimitReason c rl.user_window_seconds),
        { rl with user_limit_hits := rl.user_limit_hits + 1 }) := by
    simp [is_rate_limited, hen, hmap, hnl, hover]
  exact ⟨hmain, by rw [hmain], by rw [hmain]⟩

theorem C5_user_reject_skips_team_check_witness :
    rlFull.enabled = true ∧
    rlFull.user_requests (some "U1") = some (10, 0) ∧
    (30 : Int) - 0 ≤ rlFull.user_window_seconds ∧
    rlFull.user_max_requests ≤ 10 ∧
    is_rate_limited rlFull (some "U1") (some "T1") 30 =
      ((true, userLimitReason 10 rlFull.user_window_seconds),
        { rlFull with user_limit_hits := rlFull.user_limit_hits + 1 }) ∧
    (is_rate_limited rlFull (some "U1") (some "T1") 30).2.team_requests =
      rlFull.team_requests ∧
    (is_rate_limited rlFull (some "U1") (some "T1") 30).2.team_limit_hits =
      rlFull.team_limit_hits := by
  refine ⟨by decide, by decide, by decide, by decide, ?_⟩
  have h := C5_user_reject_skips_team_check rlFull (some "U1") (some "T1") 30 10 0
    (by decide) (by decide) (by decide) (by decide)
  exact ⟨h.1, h.2.1, h.2.2⟩

/-! ## C1: a fresh window admits exactly `max` requests -/

/-- Invariant lemma for a user inside one unexpired window: starting from a
tracked window `(c, t0)`, a run of requests all within the window and
keeping the count at or below the maximum is fully admitted and leaves the
count at `c + length`, the start time at `t0`, and the limiter
configuration untouched. -/
theorem runRequests_fill (uid : Option String) :
    ∀ (rest : List Int) (rl : RateLimiter) (c : Nat) (t0 : Int),
      rl.enabled = true →
      rl.user_requests uid = some (c, t0) →
      (∀ t ∈ rest, t - t0 ≤ rl.user_window_seconds) →
      c + rest.length ≤ rl.user_max_requests →
      (runRequests rl uid rest).1 = List.replicate rest.length (false, "") ∧
      (runRequests rl uid rest).2.user_requests =
        updMap rl.user_requests uid (c + rest.length, t0) ∧
      (runRequests rl uid rest).2.enabled = rl.enabled ∧
      (runRequests rl uid rest).2.user_window_seconds = rl.user_window_seconds ∧
      (runRequests rl uid rest).2.user_max_requests = rl.user_max_requests
  | [], rl, c, t0, hen, hmap, _, _ => by
    refine ⟨rfl, ?_, rfl, rfl, rfl⟩
    funext x
    by_cases h : x = uid
    · subst h
      simp [runRequests, updMap, hmap]
    · simp [runRequests, updMap, h]
  | t :: rest, rl, c, t0, hen, hmap, hwin, hcnt => by
    have hwt : ¬ (rl.user_window_seconds < t - t0) :=
      not_lt.mpr (hwin t (by simp))
    have hlt : ¬ (rl.user_max_requests ≤ c) := by
      simp only [List.length_cons] at hcnt
      omega
    have hstep : is_rate_limited rl uid none t =
        ((false, ""),
          { rl with user_requests := updMap rl.user_requests uid (c + 1, t0) }) := by
      simp [is_rate_limited, hen, hmap, hwt, hlt, teamPhase, truthyStr]
    have ih := runRequests_fill uid rest
      { rl with user_requests := updMap rl.user_requests uid (c + 1, t0) }
      (c + 1) t0 hen (updMap_apply_self _ _ _)
      (fun t' ht' => hwin t' (by simp [ht']))
      (by simp only [List.length_cons] at hcnt; simpa using by omega)
    obtain ⟨ih1, ih2, ih3, ih4, ih5⟩ := ih
    refine ⟨?_, ?_, ?_, ?_, ?_⟩
    · simp [runRequests, hstep, ih1, List.replicate_succ]
    · simp only [runRequests, hstep]
      rw [ih2, updMap_updMap]
      have : c + 1 + rest.length = c + (rest.length + 1) := by omega
      simp [this]
    · simpa [runRequests, hstep] using ih3
    · simpa [runRequests, hstep] using ih4
    · simpa [runRequests, hstep] using ih5

/-- C1: with rate limiting enabled and a user not currently tracked, a
sequence of exactly `user_max_requests` calls all falling inside the
window opened by the first call is admitted in full (every call returns
`(False, "")`), leaving the window at `(max, t0)`; one further call inside
the same window is rejected with the user-limit reason, and the stored
window — in particular its count — is unchanged by that rejected call. -/
theorem C1_fresh_window_fill_then_reject
    (rl : RateLimiter) (uid : Option String) (t0 : Int) (rest : List Int) (textra : Int)
    (hen : rl.enabled = true)
    (h0 : rl.user_requests uid = none)
    (hlen : rest.length + 1 = rl.user_max_requests)
    (hwin : ∀ t ∈ rest, t - t0 ≤ rl.user_window_seconds)
    (hwin2 : textra - t0 ≤ rl.user_window_seconds) :
    (runRequests rl uid (t0 :: rest)).1 =
      List.replicate rl.user_max_requests (false, "") ∧
    (runRequests rl uid (t0 :: rest)).2.user_requests uid =
      some (rl.user_max_requests, t0) ∧
    (is_rate_limited (runRequests rl uid (t0 :: rest)).2 uid none textra).1 =
      (true, userLimitReason rl.user_max_requests rl.user_window_seconds) ∧
    (is_rate_limited (runRequests rl uid (t0 :: rest)).2 uid none textra).2.user_requests uid =
      some (rl.user_max_requests, t0) := by
  have hstep0 : is_rate_limited rl uid none t0 =
      ((false, ""),
        { rl with user_requests := updMap rl.user_requests uid (1, t0) }) := by
    simp [is_rate_limited, hen, h0, teamPhase, truthyStr]
  have ih := runRequests_fill uid rest
    { rl with user_requests := updMap rl.user_requests uid (1, t0) }
    1 t0 hen (updMap_apply_self _ _ _) hwin
    (by show 1 + rest.length ≤ rl.user_max_requests; omega)
  obtain ⟨ih1, ih2, ih3, ih4, ih5⟩ := ih
  have hrun : runRequests rl uid (t0 :: rest) =
      ((false, "") :: (runRequests
          { rl with user_requests := updMap rl.user_requests uid (1, t0) } uid rest).1,
        (runRequests
          { rl with user_requests := updMap rl.user_requests uid (1, t0) } uid rest).2) := by
    simp [runRequests, hstep0]
  set rl2 := (runRequests
      { rl with user_requests := updMap rl.user_requests uid (1, t0) } uid rest).2 with hrl2
  have hmap2 : rl2.user_requests uid = some (rl.user_max_requests, t0) := by
    rw [ih2, updMap_apply_self]
    have hc : 1 + rest.length = rl.user_max_requests := by omega
    rw [hc]
  have hnl0 : ¬ (rl.user_window_seconds < textra - t0) := not_lt.mpr hwin2
  have hreject : (is_rate_limited rl2 uid none textra).1 =
      (true, userLimitReason rl.user_max_requests rl.user_window_seconds) ∧
      (is_rate_limited rl2 uid none textra).2.user_requests uid =
        some (rl.user_max_requests, t0) := by
    constructor
    · simp [is_rate_limited, ih3, hen, hmap2, hnl0, ih4, ih5]
    · simp [is_rate_limited, ih3, hen, hmap2, hnl0, ih4, ih5]
  refine ⟨?_, ?_, ?_, ?_⟩
  · rw [hrun]
    simp only [Prod.fst]
    rw [ih1, ← hlen, List.replicate_succ]
  · rw [hrun]
    exact hmap2
  · rw [hrun]
    exact hreject.1
  · rw [hrun]
    exact hreject.2

theorem C1_fresh_window_fill_then_reject_witness :
    rlSmall.enabled = true ∧
    rlSmall.user_requests (some "U1") = none ∧
    [(10 : Int)].length + 1 = rlSmall.user_max_requests ∧
    (∀ t ∈ [(10 : Int)], t - 0 ≤ rlSmall.user_window_seconds) ∧
    (20 : Int) - 0 ≤ rlSmall.user_window_seconds ∧
    ((runRequests rlSmall (some "U1") [0, 10]).1 =
        List.replicate rlSmall.user_max_requests (false, "") ∧
      (runRequests rlSmall (some "U1") [0, 10]).2.user_requests (some "U1") =
        some (rlSmall.user_max_requests, 0) ∧
      (is_rate_limited (runRequests rlSmall (some "U1") [0, 10]).2 (some "U1") none 20).1 =
        (true, userLimitReason rlSmall.user_max_requests rlSmall.user_window_seconds) ∧
      (is_rate_limited (runRequests rlSmall (some "U1") [0, 10]).2
          (some "U1") none 20).2.user_requests (some "U1") =
        some (rlSmall.user_max_requests, 0)) := by
  refine ⟨by decide, by decide, by decide, by decide, by decide, ?_⟩
  exact C1_fresh_window_fill_then_reject rlSmall (some "U1") 0 [10] 20
    (by decide) (by decide) (by decide) (by decide) (by decide)

/-! ## C8: `get_remaining_requests` omits the reset key for inactive windows -/

/-- C8 counterexample: with rate limiting enabled and no tracked window
for the user, `get_remaining_requests` reports the full maximum as
remaining but does NOT report a zero reset time — the
`user_window_reset_seconds` key is simply absent from the returned
dictionary (modelled as `none`), contradicting the claim that zero is
reported. -/
theorem C8_counterexample :
    (get_remaining_requests rlFresh (some "U1") none 100).user_remaining =
      rlFresh.user_max_requests ∧
    (get_remaining_requests rlFresh (some "U1") none 100).user_window_reset_seconds =
      none ∧
    (get_remaining_requests rlFresh (some "U1") none 100).user_window_reset_seconds ≠
      some 0 := by
  refine ⟨by decide, by decide, by decide⟩

/-- C8 (amended): with rate limiting enabled, `get_remaining_requests`
reports, for each subject (the user, and the team when a non-empty
`team_id` is supplied) with no tracked window or with an expired window,
the full configured maximum as that subject's remaining count while
omitting that subject's window-reset key entirely (callers read it with a
default); for a currently-unexpired window it reports max minus current
count (floored at 0, via truncated subtraction) and the seconds left in
the window (floored at 0).  Without a truthy `team_id` the team remaining
field is the absent marker `None` and the team reset key is omitted. -/
theorem C8_remaining_requests_amended
    (rl : RateLimiter) (uid : Option String) (tid : Option String) (now : Int)
    (hen : rl.enabled = true) :
    (get_remaining_requests rl uid tid now).user_remaining =
      (match rl.user_requests uid with
        | none => rl.user_max_requests
        | some cs =>
          if now - cs.2 ≤ rl.user_window_seconds then rl.user_max_requests - cs.1
          else rl.user_max_requests) ∧
    (get_remaining_requests rl uid tid now).user_window_reset_seconds =
      (match rl.user_requests uid with
        | none => none
        | some cs =>
          if now - cs.2 ≤ rl.user_window_seconds then
            some (max 0 (rl.user_window_seconds - (now - cs.2)))
          else none) ∧
    (get_remaining_requests rl uid tid now).team_remaining =
      (match tid with
        | none => none
        | some t =>
          if t = "" then none
          else
            match rl.team_requests t with
            | none => some rl.team_max_requests
            | some cs =>
              if now - cs.2 ≤ rl.team_window_seconds then
                some (rl.team_max_requests - cs.1)
              else some rl.team_max_requests) ∧
    (get_remaining_requests rl uid tid now).team_window_reset_seconds =
      (match tid with
        | none => none
        | some t =>
          if t = "" then none
          else
            match rl.team_requests t with
            | none => none
            | some cs =>
              if now - cs.2 ≤ rl.team_window_seconds then
                some (max 0 (rl.team_window_seconds - (now - cs.2)))
              else none) := by
  rcases hu : rl.user_requests uid with _ | ⟨c, s⟩
  · rcases tid with _ | t
    · simp [get_remaining_requests, hen, hu, truthyStr]
    · by_cases ht : t = ""
      · simp [get_remaining_requests, hen, hu, truthyStr, ht]
      · rcases htr : rl.team_requests t with _ | ⟨tc, ts0⟩
        · simp [get_remaining_requests, hen, hu, truthyStr, ht, htr]
        · by_cases htw : now - ts0 ≤ rl.team_window_seconds <;>
            simp [get_remaining_requests, hen, hu, truthyStr, ht, htr, htw]
  · rcases tid with _ | t
    · by_cases hw : now - s ≤ rl.user_window_seconds <;>
        simp [get_remaining_requests, hen, hu, truthyStr, hw]
    · by_cases ht : t = ""
      · by_cases hw : now - s ≤ rl.user_window_seconds <;>
          simp [get_remaining_requests, hen, hu, truthyStr, ht, hw]
      · rcases htr : rl.team_requests t with _ | ⟨tc, ts0⟩
        · by_cases hw : now - s ≤ rl.user_window_seconds <;>
            simp [get_remaining_requests, hen, hu, truthyStr, ht, htr, hw]
        · by_cases hw : now - s ≤ rl.user_window_seconds <;>
            by_cases htw : now - ts0 ≤ rl.team_window_seconds <;>
            simp [get_remaining_requests, hen, hu, truthyStr, ht, htr, hw, htw]

theorem C8_remaining_requests_amended_witness :
    rlFull.enabled = true ∧
    ((get_remaining_requests rlFull (some "U1") (some "T1") 30).user_remaining =
        (match rlFull.user_requests (some "U1") with
          | none => rlFull.user_max_requests
          | some cs =>
            if 30 - cs.2 ≤ rlFull.user_window_seconds then rlFull.user_max_requests - cs.1
            else rlFull.user_max_requests) ∧
      (get_remaining_requests rlFull (some "U1") (some "T1") 30).user_window_reset_seconds =
        (match rlFull.user_requests (some "U1") with
          | none => none
          | some cs =>
            if 30 - cs.2 ≤ rlFull.user_window_seconds then
              some (max 0 (rlFull.user_window_seconds - (30 - cs.2)))
            else none) ∧
      (get_remaining_requests rlFull (some "U1") (some "T1") 30).team_remaining =
        (match (some "T1" : Option String) with
          | none => none
          | some t =>
            if t = "" then none
            else
              match rlFull.team_requests t with
              | none => some rlFull.team_max_requests
              | some cs =>
                if 30 - cs.2 ≤ rlFull.team_window_seconds then
                  some (rlFull.team_max_requests - cs.1)
                else some rlFull.team_max_requests) ∧
      (get_remaining_requests rlFull (some "U1") (some "T1") 30).team_window_reset_seconds =
        (match (some "T1" : Option String) with
          | none => none
          | some t =>
            if t = "" then none
            else
              match rlFull.team_requests t with
              | none => none
              | some cs =>
                if 30 - cs.2 ≤ rlFull.team_window_seconds then
                  some (max 0 (rlFull.team_window_seconds - (30 - cs.2)))
                else none)) :=
  ⟨by decide, C8_remaining_requests_amended rlFull (some "U1") (some "T1") 30 (by decide)⟩

/-! ## C9: a team-level rejection still consumes user quota -/

/-- C9: when the user-level check passes (absent, expired, or unexpired
window with count below the user maximum) but the team-level check rejects
(non-empty team id, unexpired team window with count at or above the team
maximum), `is_rate_limited` returns limited with the team-limit reason,
yet the user's window has already been created, reset, or incremented by
the same call and is not rolled back; the team window itself is unchanged
and the team hit counter is incremented. -/
theorem C9_team_reject_consumes_user_quota
    (rl : RateLimiter) (uid : Option String) (t : String) (now : Int)
    (tc : Nat) (ts0 : Int)
    (hen : rl.enabled = true)
    (ht : t ≠ "")
    (hpass : rl.user_requests uid = none ∨
      ∃ c s, rl.user_requests uid = some (c, s) ∧
        (rl.user_window_seconds < now - s ∨
          (now - s ≤ rl.user_window_seconds ∧ c < rl.user_max_requests)))
    (hteam : rl.team_requests t = some (tc, ts0))
    (htin : now - ts0 ≤ rl.team_window_seconds)
    (htover : rl.team_max_requests ≤ tc) :
    (is_rate_limited rl uid (some t) now).1 =
      (true, teamLimitReason tc rl.team_window_seconds) ∧
    (is_rate_limited rl uid (some t) now).2.user_requests uid =
      (match rl.user_requests uid with
        | none => some (1, now)
        | some cs =>
          if rl.user_window_seconds < now - cs.2 then some (1, now)
          else some (cs.1 + 1, cs.2)) ∧
    (is_rate_limited rl uid (some t) now).2.team_requests = rl.team_requests ∧
    (is_rate_limited rl uid (some t) now).2.team_limit_hits = rl.team_limit_hits + 1 := by
  have hntw : ¬ (rl.team_window_seconds < now - ts0) := not_lt.mpr htin
  rcases hpass with h0 | ⟨c, s, hmap, hcase⟩
  · refine ⟨?_, ?_, ?_, ?_⟩ <;>
      simp [is_rate_limited, hen, h0, teamPhase, truthyStr, ht, hteam, hntw, htover,
        updMap_apply_self]
  · rcases hcase with hexp | ⟨hin, hlt⟩
    · have hnle : rl.user_window_seconds < now - s := hexp
      refine ⟨?_, ?_, ?_, ?_⟩ <;>
        simp [is_rate_limited, hen, hmap, hnle, teamPhase, truthyStr, ht, hteam, hntw,
          htover, updMap_apply_self]
    · have hnl : ¬ (rl.user_window_seconds < now - s) := not_lt.mpr hin
      have hnle : ¬ (rl.user_max_requests ≤ c) := not_le.mpr hlt
      refine ⟨?_, ?_, ?_, ?_⟩ <;>
        simp [is_rate_limited, hen, hmap, hnl, hnle, teamPhase, truthyStr, ht, hteam,
          hntw, htover, updMap_apply_self]

theorem C9_team_reject_consumes_user_quota_witness :
    rlTeamFull.enabled = true ∧
    "T1" ≠ "" ∧
    (rlTeamFull.user_requests (some "U1") = none ∨
      ∃ c s, rlTeamFull.user_requests (some "U1") = some (c, s) ∧
        (rlTeamFull.user_window_seconds < 30 - s ∨
          (30 - s ≤ rlTeamFull.user_window_seconds ∧ c < rlTeamFull.user_max_requests))) ∧
    rlTeamFull.team_requests "T1" = some (100, 0) ∧
    (30 : Int) - 0 ≤ rlTeamFull.team_window_seconds ∧
    rlTeamFull.team_max_requests ≤ 100 ∧
    ((is_rate_limited rlTeamFull (some "U1") (some "T1") 30).1 =
        (true, teamLimitReason 100 rlTeamFull.team_window_seconds) ∧
      (is_rate_limited rlTeamFull (some "U1") (some "T1") 30).2.user_requests (some "U1") =
        (match rlTeamFull.user_requests (some "U1") with
          | none => some (1, 30)
          | some cs =>
            if rlTeamFull.user_window_seconds < 30 - cs.2 then some (1, 30)
            else some (cs.1 + 1, cs.2)) ∧
      (is_rate_limited rlTeamFull (some "U1") (some "T1") 30).2.team_requests =
        rlTeamFull.team_requests ∧
      (is_rate_limited rlTeamFull (some "U1") (some "T1") 30).2.team_limit_hits =
        rlTeamFull.team_limit_hits + 1) := by
  refine ⟨by decide, by decide, Or.inr ⟨4, 0, by decide, Or.inr (by decide)⟩,
    by decide, by decide, by decide, ?_⟩
  exact C9_team_reject_consumes_user_quota rlTeamFull (some "U1") "T1" 30 100 0
    (by decide) (by decide) (Or.inr ⟨4, 0, by decide, Or.inr (by decide)⟩)
    (by decide) (by decide) (by decide)

/-! ## C6: the duplicate cache is bounded and evicts oldest markers first -/

theorem length_filter_not_add_countP {α : Type} (P : α → Bool) (l : List α) :
    (l.filter fun a => !(P a)).length + l.countP P = l.length := by
  induction l with
  | nil => rfl
  | cons a l ih =>
    cases h : P a <;> simp [List.filter_cons, List.countP_cons, h] <;> omega

/-- On the accept path (fingerprint not cached, event not stale),
`is_duplicate_message` appends the fingerprint and trims the cache
exactly as in helpers.py:37-47. -/
theorem is_duplicate_message_accept (maxCache : Nat) (expiry : Int)
    (event : SlackEvent) (cache : DupCache) (now : Int)
    (hfresh : List.lookup (create_message_hash event) cache = none)
    (hlive : now - event.ts ≤ expiry) :
    is_duplicate_message maxCache expiry event cache now =
      (false,
        if maxCache < (cache ++ [(create_message_hash event, event.ts)]).length then
          (cache ++ [(create_message_hash event, event.ts)]).filter fun p =>
            !(((List.insertionSort (fun a b => a.2 ≤ b.2)
                    (cache ++ [(create_message_hash event, event.ts)])).take
                  ((cache ++ [(create_message_hash event, event.ts)]).length - maxCache)).map
                Prod.fst).contains p.1
        else cache ++ [(create_message_hash event, event.ts)]) := by
  have hns : ¬ (expiry < now - event.ts) := not_lt.mpr hlive
  simp only [is_duplicate_message, hfresh, Option.isSome_none, Bool.false_eq_true,
    if_false, hns, if_true]
  split <;> rfl

/-- The eviction step keeps at most `maxCache` entries. -/
theorem evict_length_le (maxCache : Nat) (l : List (String × Int))
    (hover : maxCache < l.length) :
    (l.filter fun p =>
        !(((List.insertionSort (fun a b => a.2 ≤ b.2) l).take (l.length - maxCache)).map
            Prod.fst).contains p.1).length ≤ maxCache := by
  set sorted := List.insertionSort (fun a b => a.2 ≤ b.2) l with hs
  set k := l.length - maxCache with hk
  set removedKeys := (sorted.take k).map Prod.fst with hr
  have hfilter : (l.filter fun p => !(removedKeys.contains p.1)).length +
      l.countP (fun p => removedKeys.contains p.1) = l.length :=
    length_filter_not_add_countP _ l
  have hperm : sorted.Perm l := List.perm_insertionSort _ l
  have hcount : sorted.countP (fun p => removedKeys.contains p.1) =
      l.countP (fun p => removedKeys.contains p.1) := hperm.countP_eq _
  have hsplit : sorted.countP (fun p => removedKeys.contains p.1) =
      (sorted.take k).countP (fun p => removedKeys.contains p.1) +
        (sorted.drop k).countP (fun p => removedKeys.contains p.1) := by
    rw [← List.countP_append, List.take_append_drop]
  have htake : (sorted.take k).countP (fun p => removedKeys.contains p.1) =
      (sorted.take k).length :=
    List.countP_eq_length.mpr (fun a ha => by
      have hmem : a.1 ∈ removedKeys := by
        rw [hr]
        exact List.mem_map.mpr ⟨a, ha, rfl⟩
      exact List.elem_iff.mpr hmem)
  have hlen_sorted : sorted.length = l.length := hperm.length_eq
  have hlen_take : (sorted.take k).length = k := by
    rw [List.length_take, hlen_sorted]
    omega
  omega

/-- Entries evicted by the trimming step carry markers at most those of
every surviving entry (the sort is by stored marker, ascending, and the
first `length - maxCache` entries of the sorted list are removed). -/
theorem evicted_marker_le_kept (maxCache : Nat) (l : List (String × Int))
    (p q : String × Int)
    (hnodup : (l.map Prod.fst).Nodup)
    (hp : p ∈ l)
    (hpgone : p ∉ l.filter fun r =>
      !(((List.insertionSort (fun a b => a.2 ≤ b.2) l).take (l.length - maxCache)).map
          Prod.fst).contains r.1)
    (hq : q ∈ l.filter fun r =>
      !(((List.insertionSort (fun a b => a.2 ≤ b.2) l).take (l.length - maxCache)).map
          Prod.fst).contains r.1) :
    p.2 ≤ q.2 := by
  set sorted := List.insertionSort (fun a b => a.2 ≤ b.2) l with hs
  set k := l.length - maxCache with hk
  set removedKeys := (sorted.take k).map Prod.fst with hr
  have hperm : sorted.Perm l := List.perm_insertionSort _ l
  -- p is among the removed entries
  have hpP : removedKeys.contains p.1 = true := by
    by_contra hcon
    apply hpgone
    apply List.mem_filter.mpr
    refine ⟨hp, ?_⟩
    simp only [Bool.not_eq_true] at hcon
    simp only [Bool.not_eq_true']
    exact hcon
  have hpmem : p.1 ∈ removedKeys := List.elem_iff.mp hpP
  obtain ⟨p', hp'take, hp'fst⟩ := List.mem_map.mp (by rw [hr] at hpmem; exact hpmem)
  have hp'l : p' ∈ l := hperm.mem_iff.mp (List.mem_of_mem_take hp'take)
  have hp'eq : p' = p := List.inj_on_of_nodup_map hnodup hp'l hp hp'fst
  have hptake : p ∈ sorted.take k := hp'eq ▸ hp'take
  -- q is among the kept entries
  have hql : q ∈ l := (List.mem_filter.mp hq).1
  have hqP : removedKeys.contains q.1 = false := by
    have := (List.mem_filter.mp hq).2
    simpa using this
  have hqsorted : q ∈ sorted := hperm.mem_iff.mpr hql
  have hqdrop : q ∈ sorted.drop k := by
    rcases List.mem_append.mp
        (by rw [List.take_append_drop k sorted]; exact hqsorted) with htk | hdr
    · exfalso
      have hmem : q.1 ∈ removedKeys := by
        rw [hr]
        exact List.mem_map.mpr ⟨q, htk, rfl⟩
      have hcontains : removedKeys.contains q.1 = true := List.elem_iff.mpr hmem
      rw [hcontains] at hqP
      exact Bool.noConfusion hqP
    · exact hdr
  -- sortedness: every removed entry precedes every kept entry
  have hsort : List.Sorted (fun a b : String × Int => a.2 ≤ b.2) sorted :=
    List.sorted_insertionSort _ l
  rw [List.Sorted, ← List.take_append_drop k sorted] at hsort
  exact (List.pairwise_append.mp hsort).2.2 p hptake q hqdrop

/-- One duplicate-check call never grows the cache beyond `maxCache`. -/
theorem is_duplicate_message_length_le (maxCache : Nat) (expiry : Int)
    (event : SlackEvent) (cache : DupCache) (now : Int)
    (h : cache.length ≤ maxCache) :
    (is_duplicate_message maxCache expiry event cache now).2.length ≤ maxCache := by
  by_cases h1 : (List.lookup (create_message_hash event) cache).isSome
  · simp [is_duplicate_message, h1, h]
  · by_cases h2 : expiry < now - event.ts
    · simp [is_duplicate_message, h1, h2, h]
    · by_cases h3 : maxCache < cache.length + 1
      · have hover : maxCache < (cache ++ [(create_message_hash event, event.ts)]).length := by
          simpa using h3
        have hle := evict_length_le maxCache
          (cache ++ [(create_message_hash event, event.ts)]) hover
        simpa [is_duplicate_message, h1, h2, h3] using hle
      · simp [is_duplicate_message, h1, h2, h3]
        omega

theorem runDup_go_length_le (maxCache : Nat) (expiry : Int) :
    ∀ (calls : List (SlackEvent × Int)) (cache : DupCache),
      cache.length ≤ maxCache →
      (calls.foldl
          (fun cache ci => (is_duplicate_message maxCache expiry ci.1 cache ci.2).2)
          cache).length ≤ maxCache
  | [], cache, h => h
  | ci :: calls, cache, h =>
    runDup_go_length_le maxCache expiry calls _
      (is_duplicate_message_length_le maxCache expiry ci.1 cache ci.2 h)

/-- C6: starting from the empty cache, after any sequence of
duplicate-check calls the cache holds at most `maxCache` entries; and on
any single call that inserts a fingerprint (fresh, non-stale event over a
duplicate-free cache) and trims, every entry removed by the trim carries a
stored marker no larger than the marker of every surviving entry — the
evicted entries are the oldest-marker ones. -/
theorem C6_cache_bounded_evicts_oldest
    (maxCache : Nat) (expiry : Int) (calls : List (SlackEvent × Int))
    (cache : DupCache) (event : SlackEvent) (now : Int) (p q : String × Int)
    (hnodup : (cache.map Prod.fst).Nodup)
    (hfresh : List.lookup (create_message_hash event) cache = none)
    (hlive : now - event.ts ≤ expiry)
    (hp : p ∈ cache ++ [(create_message_hash event, event.ts)])
    (hpgone : p ∉ (is_duplicate_message maxCache expiry event cache now).2)
    (hq : q ∈ (is_duplicate_message maxCache expiry event cache now).2) :
    (runDup maxCache expiry calls).length ≤ maxCache ∧ p.2 ≤ q.2 := by
  constructor
  · exact runDup_go_length_le maxCache expiry calls [] (Nat.zero_le maxCache)
  · have hres := is_duplicate_message_accept maxCache expiry event cache now hfresh hlive
    rw [hres] at hpgone hq
    by_cases hover : maxCache < (cache ++ [(create_message_hash event, event.ts)]).length
    · rw [if_pos hover] at hpgone hq
      have hnodup2 :
          ((cache ++ [(create_message_hash event, event.ts)]).map Prod.fst).Nodup := by
        rw [List.map_append]
        simp only [List.map_cons, List.map_nil]
        rw [List.nodup_append]
        refine ⟨hnodup, List.nodup_singleton _, ?_⟩
        intro a ha hb
        simp only [List.mem_singleton] at hb
        subst hb
        exact ((lookup_eq_none_iff (create_message_hash event) cache).mp hfresh) ha
      exact evicted_marker_le_kept maxCache
        (cache ++ [(create_message_hash event, event.ts)]) p q hnodup2 hp hpgone hq
    · rw [if_neg hover] at hpgone
      exact absurd hp hpgone

theorem C6_cache_bounded_evicts_oldest_witness :
    ([("x|y|1", 1)].map Prod.fst).Nodup ∧
    List.lookup (create_message_hash evNew) [("x|y|1", 1)] = none ∧
    (55 : Int) - evNew.ts ≤ 60 ∧
    ("x|y|1", (1 : Int)) ∈ [("x|y|1", 1)] ++ [(create_message_hash evNew, evNew.ts)] ∧
    ("x|y|1", (1 : Int)) ∉ (is_duplicate_message 1 60 evNew [("x|y|1", 1)] 55).2 ∧
    (create_message_hash evNew, evNew.ts) ∈
      (is_duplicate_message 1 60 evNew [("x|y|1", 1)] 55).2 ∧
    ((runDup 1 60 [(evNew, 55)]).length ≤ 1 ∧
      (("x|y|1", (1 : Int)).2 ≤ ((create_message_hash evNew, evNew.ts)).2)) := by
  refine ⟨by decide, by decide, by decide, by decide, by decide, by decide, ?_⟩
  exact C6_cache_bounded_evicts_oldest 1 60 [(evNew, 55)] [("x|y|1", 1)] evNew 55
    ("x|y|1", 1) (create_message_hash evNew, evNew.ts)
    (by decide) (by decide) (by decide) (by decide) (by decide) (by decide)

/-! ## Pipeline helper lemmas -/

/-- The team-level half of `is_rate_limited` never touches the user map. -/
theorem teamPhase_user_requests (rl : RateLimiter) (tid : Option String)
    (now : Int) (reason : String) :
    (teamPhase rl tid now reason).2.user_requests = rl.user_requests := by
  rcases tid with _ | t
  · simp [teamPhase, truthyStr]
  · by_cases ht : t = ""
    · simp [teamPhase, truthyStr, ht]
    · rcases htr : rl.team_requests t with _ | ⟨tc, ts0⟩
      · simp [teamPhase, truthyStr, ht, htr]
      · by_cases h1 : rl.team_window_seconds < now - ts0
        · simp [teamPhase, truthyStr, ht, htr, h1]
        · by_cases h2 : rl.team_max_requests ≤ tc <;>
            simp [teamPhase, truthyStr, ht, htr, h1, h2]

/-- An admitted call (enabled, overall not limited) has created, reset, or
incremented the caller's user window. -/
theorem is_rate_limited_user_entry (rl : RateLimiter) (uid : Option String)
    (tid : Option String) (now : Int)
    (hen : rl.enabled = true)
    (hpass : (is_rate_limited rl uid tid now).1.1 = false) :
    (is_rate_limited rl uid tid now).2.user_requests uid =
      (match rl.user_requests uid with
        | none => some (1, now)
        | some cs =>
          if rl.user_window_seconds < now - cs.2 then some (1, now)
          else some (cs.1 + 1, cs.2)) := by
  rcases hu : rl.user_requests uid with _ | ⟨c, s⟩
  · simp [is_rate_limited, hen, hu, teamPhase_user_requests, updMap_apply_self]
  · by_cases hw : rl.user_window_seconds < now - s
    · simp [is_rate_limited, hen, hu, hw, teamPhase_user_requests, updMap_apply_self]
    · by_cases hc : rl.user_max_requests ≤ c
      · exfalso
        have hres : (is_rate_limited rl uid tid now).1.1 = true := by
          simp [is_rate_limited, hen, hu, hw, hc]
        rw [hres] at hpass
        exact Bool.noConfusion hpass
      · simp [is_rate_limited, hen, hu, hw, hc, teamPhase_user_requests, updMap_apply_self]

/-- A duplicate check that returned `False` had a fresh fingerprint and a
non-stale timestamp. -/
theorem is_duplicate_message_false_elim (maxCache : Nat) (expiry : Int)
    (event : SlackEvent) (cache : DupCache) (now : Int)
    (h : (is_duplicate_message maxCache expiry event cache now).1 = false) :
    List.lookup (create_message_hash event) cache = none ∧ now - event.ts ≤ expiry := by
  by_cases h1 : (List.lookup (create_message_hash event) cache).isSome
  · exfalso
    simp [is_duplicate_message, h1] at h
  · by_cases h2 : expiry < now - event.ts
    · exfalso
      simp [is_duplicate_message, h1, h2] at h
    · exact ⟨Option.not_isSome_iff_eq_none.mp h1, not_lt.mp h2⟩

/-- If the cache is not yet full, the accepted fingerprint is present in
the returned cache with the event's timestamp as marker. -/
theorem is_duplicate_message_inserts (maxCache : Nat) (expiry : Int)
    (event : SlackEvent) (cache : DupCache) (now : Int)
    (hflag : (is_duplicate_message maxCache expiry event cache now).1 = false)
    (hroom : cache.length < maxCache) :
    List.lookup (create_message_hash event)
      (is_duplicate_message maxCache expiry event cache now).2 = some event.ts := by
  obtain ⟨hfresh, hlive⟩ :=
    is_duplicate_message_false_elim maxCache expiry event cache now hflag
  have hres := is_duplicate_message_accept maxCache expiry event cache now hfresh hlive
  have hnover : ¬ (maxCache < (cache ++ [(create_message_hash event, event.ts)]).length) := by
    simp only [List.length_append, List.length_cons, List.length_nil]
    omega
  rw [hres]
  simp only [if_neg hnover]
  rw [List.lookup_append, hfresh]
  simp [List.lookup]

/-! ## C7: summarization requests are classified but never routed -/

/-- C7 counterexample: for the spec's own example message, delivered as a
fully admitted event (fresh cache and limiter), the classifier does
extract `(true, "https://example.com/article")` — but the handler routes
the event to the plain-conversation path (`status = ok`), not to any
web-summarization strategy: `slack_events` never consults
`is_web_summarization_request`. -/
theorem C7_counterexample :
    is_web_summarization_request "can you summarize https://example.com/article please" =
      (true, some "https://example.com/article") ∧
    (slack_events none (some "BOT") 100 60 dataSum stFresh 10).1 = SlackStatus.ok := by
  constructor <;> decide

/-- C7 (amended): `is_web_summarization_request` on the spec's example
yields a web-summarization intent with URL `"https://example.com/article"`
(first whitespace token with an `http(s)://` prefix, one trailing
punctuation character stripped); but the event pipeline never routes to a
web-summarization strategy: every admitted, non-empty message that does
not satisfy the image-generation criteria — in particular every message
the web classifier would match — is routed to the plain-conversation
path. -/
theorem C7_summarization_classified_but_not_routed
    (allowed_channel bot_user_id : Option String) (maxCache : Nat) (expiry : Int)
    (data : SlackData) (st : PipelineState) (now : Int) (url : String)
    (h0 : data.dtype ≠ some "url_verification")
    (h1 : data.event.etype = some "message" ∨ data.event.etype = some "app_mention")
    (h2 : (match allowed_channel with
           | some a => a != "" && data.event.channel != some a
           | none => false) = false)
    (h3 : data.event.channel_type ≠ some "im")
    (h4 : truthyStr data.event.bot_id = false)
    (h5 : data.event.user ≠ bot_user_id)
    (h6 : data.event.subtype ≠ some "bot_message")
    (h7 : data.event.subtype ≠ some "message_changed")
    (h8 : (is_duplicate_message maxCache expiry data.event st.cache now).1 = false)
    (h9 : (is_rate_limited st.limiter data.event.user data.team_id now).1.1 = false)
    (h10 : pyStrip (pyLower data.event.text) ≠ "")
    (h11 : (is_image_generation_request (pyLower data.event.text)).1 = false)
    (h12 : is_web_summarization_request (pyLower data.event.text) = (true, some url)) :
    (slack_events allowed_channel bot_user_id maxCache expiry data st now).1 =
      SlackStatus.ok ∧
    is_web_summarization_request
      "can you summarize https://example.com/article please" =
      (true, some "https://example.com/article") := by
  constructor
  · have b0 : (data.dtype == some "url_verification") = false :=
      beq_eq_false_iff_ne.mpr h0
    have b1 : (data.event.etype == some "message" ||
        data.event.etype == some "app_mention") = true := by
      rcases h1 with h | h <;> simp [h]
    have b3 : (data.event.channel_type == some "im") = false :=
      beq_eq_false_iff_ne.mpr h3
    have b5 : (data.event.user == bot_user_id) = false :=
      beq_eq_false_iff_ne.mpr h5
    have b6 : (data.event.subtype == some "bot_message") = false :=
      beq_eq_false_iff_ne.mpr h6
    have b7 : (data.event.subtype == some "message_changed") = false :=
      beq_eq_false_iff_ne.mpr h7
    have b10 : (pyStrip (pyLower data.event.text) == "") = false :=
      beq_eq_false_iff_ne.mpr h10
    simp [slack_events, b0, b1, h2, b3, h4, b5, b6, b7, h8, h9, b10, h11]
  · decide

theorem C7_summarization_classified_but_not_routed_witness :
    (dataSum.dtype ≠ some "url_verification" ∧
      (dataSum.event.etype = some "message" ∨ dataSum.event.etype = some "app_mention") ∧
      pyStrip (pyLower dataSum.event.text) ≠ "" ∧
      (is_image_generation_request (pyLower dataSum.event.text)).1 = false ∧
      is_web_summarization_request (pyLower dataSum.event.text) =
        (true, some "https://example.com/article")) ∧
    ((slack_events none (some "BOT") 100 60 dataSum stFresh 10).1 = SlackStatus.ok ∧
      is_web_summarization_request
        "can you summarize https://example.com/article please" =
        (true, some "https://example.com/article")) := by
  refine ⟨⟨by decide, by decide, by decide, by decide, by decide⟩, ?_⟩
  exact C7_summarization_classified_but_not_routed none (some "BOT") 100 60 dataSum
    stFresh 10 "https://example.com/article"
    (by decide) (by decide) (by decide) (by decide) (by decide) (by decide)
    (by decide) (by decide) (by decide) (by decide) (by decide) (by decide) (by decide)

/-! ## C10: empty messages are ignored only after consuming state -/

/-- C10: an inbound message event that passes the event-type, channel, DM,
bot, and message-changed filters, is accepted by the duplicate check, and
is admitted by the (enabled) rate limiter, but whose text is empty or
whitespace-only, yields `ignored_empty_message` with the fingerprint
already inserted into the duplicate cache (still present afterwards
whenever the cache had room) and the user's rate window already
created/reset/incremented by this same call — the ignored message consumes
duplicate-suppression and rate-limit state. -/
theorem C10_empty_message_consumes_state
    (allowed_channel bot_user_id : Option String) (maxCache : Nat) (expiry : Int)
    (data : SlackData) (st : PipelineState) (now : Int)
    (hen : st.limiter.enabled = true)
    (h0 : data.dtype ≠ some "url_verification")
    (h1 : data.event.etype = some "message" ∨ data.event.etype = some "app_mention")
    (h2 : (match allowed_channel with
           | some a => a != "" && data.event.channel != some a
           | none => false) = false)
    (h3 : data.event.channel_type ≠ some "im")
    (h4 : truthyStr data.event.bot_id = false)
    (h5 : data.event.user ≠ bot_user_id)
    (h6 : data.event.subtype ≠ some "bot_message")
    (h7 : data.event.subtype ≠ some "message_changed")
    (h8 : (is_duplicate_message maxCache expiry data.event st.cache now).1 = false)
    (h9 : (is_rate_limited st.limiter data.event.user data.team_id now).1.1 = false)
    (h10 : pyStrip (pyLower data.event.text) = "") :
    (slack_events allowed_channel bot_user_id maxCache expiry data st now).1 =
      SlackStatus.ignored_empty_message ∧
    (slack_events allowed_channel bot_user_id maxCache expiry data st now).2.cache =
      (is_duplicate_message maxCache expiry data.event st.cache now).2 ∧
    (slack_events allowed_channel bot_user_id maxCache expiry data st now).2.limiter =
      (is_rate_limited st.limiter data.event.user data.team_id now).2 ∧
    (slack_events allowed_channel bot_user_id maxCache expiry data st
        now).2.limiter.user_requests data.event.user =
      (match st.limiter.user_requests data.event.user with
        | none => some (1, now)
        | some cs =>
          if st.limiter.user_window_seconds < now - cs.2 then some (1, now)
          else some (cs.1 + 1, cs.2)) ∧
    (st.cache.length < maxCache →
      List.lookup (create_message_hash data.event)
        (slack_events allowed_channel bot_user_id maxCache expiry data st now).2.cache =
        some data.event.ts) := by
  have b0 : (data.dtype == some "url_verification") = false :=
    beq_eq_false_iff_ne.mpr h0
  have b1 : (data.event.etype == some "message" ||
      data.event.etype == some "app_mention") = true := by
    rcases h1 with h | h <;> simp [h]
  have b3 : (data.event.channel_type == some "im") = false :=
    beq_eq_false_iff_ne.mpr h3
  have b5 : (data.event.user == bot_user_id) = false :=
    beq_eq_false_iff_ne.mpr h5
  have b6 : (data.event.subtype == some "bot_message") = false :=
    beq_eq_false_iff_ne.mpr h6
  have b7 : (data.event.subtype == some "message_changed") = false :=
    beq_eq_false_iff_ne.mpr h7
  have b10 : (pyStrip (pyLower data.event.text) == "") = true := beq_iff_eq.mpr h10
  have hroute : slack_events allowed_channel bot_user_id maxCache expiry data st now =
      (SlackStatus.ignored_empty_message,
        { cache := (is_duplicate_message maxCache expiry data.event st.cache now).2,
          limiter := (is_rate_limited st.limiter data.event.user data.team_id now).2 }) := by
    simp [slack_events, b0, b1, h2, b3, h4, b5, b6, b7, h8, h9, b10]
  refine ⟨by rw [hroute], by rw [hroute], by rw [hroute], ?_, ?_⟩
  · rw [hroute]
    exact is_rate_limited_user_entry st.limiter data.event.user data.team_id now hen h9
  · intro hroom
    rw [hroute]
    exact is_duplicate_message_inserts maxCache expiry data.event st.cache now h8 hroom

theorem C10_empty_message_consumes_state_witness :
    (stFresh.limiter.enabled = true ∧
      (is_duplicate_message 100 60 dataBlank.event stFresh.cache 10).1 = false ∧
      (is_rate_limited stFresh.limiter dataBlank.event.user dataBlank.team_id 10).1.1 =
        false ∧
      pyStrip (pyLower dataBlank.event.text) = "") ∧
    ((slack_events none (some "BOT") 100 60 dataBlank stFresh 10).1 =
        SlackStatus.ignored_empty_message ∧
      (slack_events none (some "BOT") 100 60 dataBlank stFresh 10).2.cache =
        (is_duplicate_message 100 60 dataBlank.event stFresh.cache 10).2 ∧
      (slack_events none (some "BOT") 100 60 dataBlank stFresh 10).2.limiter =
        (is_rate_limited stFresh.limiter dataBlank.event.user dataBlank.team_id 10).2 ∧
      (slack_events none (some "BOT") 100 60 dataBlank stFresh
          10).2.limiter.user_requests dataBlank.event.user =
        (match stFresh.limiter.user_requests dataBlank.event.user with
          | none => some (1, 10)
          | some cs =>
            if stFresh.limiter.user_window_seconds < 10 - cs.2 then some (1, 10)
            else some (cs.1 + 1, cs.2)) ∧
      (stFresh.cache.length < 100 →
        List.lookup (create_message_hash dataBlank.event)
          (slack_events none (some "BOT") 100 60 dataBlank stFresh 10).2.cache =
          some dataBlank.event.ts)) := by
  refine ⟨⟨by decide, by decide, by decide, by decide⟩, ?_⟩
  exact C10_empty_message_consumes_state none (some "BOT") 100 60 dataBlank stFresh 10
    (by decide) (by decide) (by decide) (by decide) (by decide) (by decide) (by decide)
    (by decide) (by decide) (by decide) (by decide) (by decide)

end Slackbot
